import Mathlib

/-!
Verification development for the x-weird-for HTTP-header anomaly pipeline.

The Python sources `xweirdfor/extract_features.py`, `xweirdfor/heuristics.py`
and `scripts/predict.py` are shallowly embedded below.  Header collections
are modelled as ordered association lists `List (String × String)` (Python
dicts preserve insertion order); floating point quantities are modelled as
rationals, except Shannon entropy and standard deviations, which are real
valued.  Python code that can raise is modelled with `Option`.  String
predicates model CPython semantics on ASCII data (all tables and examples in
the sources are ASCII).
-/

set_option maxRecDepth 40000

/-!
### Heuristic analyzer (`xweirdfor/heuristics.py`)

`_check_timing_anomalies` reads the wall clock (`datetime.now`) and parses
HTTP dates with the standard library's `parsedate_to_datetime`.  Both are
environment inputs of the analyzer, so they are passed explicitly: `now` is
the current time and `pd` the date parser, each in whole seconds since the
epoch (`pd v = none` models both a parse failure and a naive result whose
comparison with `now` raises, which the source catches the same way).
-/

/-!
### Ensemble prediction (`scripts/predict.py`)

A member model is external: it contributes a name, a raw decision score and
a predicted label (`-1` = outlier).  The aggregation of votes
(`predict_ensemble_model`, lines 34-86) and the gray tiebreak of `main`
(lines 150-161) are embedded below; scores are rational, the score standard
deviation real.
-/

/-- A header collection: ordered list of (name, value) pairs. -/
abbrev HeaderSet := List (String × String)

/- ### Basic string helpers (Python `in`, `str.lower`, `str.startswith`) -/

/-- Python `sub in s` for strings: substring containment test. -/
def listContainsSub (pat : List Char) : List Char → Bool
  | [] => pat.isPrefixOf []
  | c :: rest => pat.isPrefixOf (c :: rest) || listContainsSub pat rest

/-- `containsSub s pat` models Python `pat in s`. -/
def containsSub (s pat : String) : Bool :=
  listContainsSub pat.data s.data

/-- Python `str.lower()` (ASCII). -/
def lowerStr (s : String) : String :=
  String.mk (s.data.map Char.toLower)

/-- Case-insensitive substring test (both sides lowercased). -/
def containsSubCI (s pat : String) : Bool :=
  containsSub (lowerStr s) (lowerStr pat)

/-- Python `s.startswith(pat)`. -/
def startsWithPy (s pat : String) : Bool :=
  pat.data.isPrefixOf s.data

/- ### Header lookup (Python `dict` access) -/

/-- Python `header_dict.get(k, d)`: value of the first exactly matching key,
default `d`. -/
def getHeaderD (H : HeaderSet) (k d : String) : String :=
  match H.find? (fun p => p.1 == k) with
  | some p => p.2
  | none => d

/-- Python `k in header_dict`. -/
def hasHeader (H : HeaderSet) (k : String) : Bool :=
  H.any (fun p => p.1 == k)

/- ### Expected-header weight table (`extract_features.py` lines 7-27) -/

/-- `EXPECTED_HEADERS` of `extract_features.py`, in source order. -/
def EXPECTED_HEADERS : List (String × ℚ) :=
  [("Host", 2), ("User-Agent", 2),
   ("Accept", 3/2), ("Accept-Encoding", 3/2), ("Accept-Language", 3/2),
   ("Connection", 3/2),
   ("Content-Type", 1), ("Content-Length", 1), ("Referer", 1),
   ("Cookie", 1), ("Authorization", 1), ("Cache-Control", 1),
   ("X-Forwarded-For", 4/5), ("X-Real-IP", 4/5), ("X-Forwarded-Proto", 4/5)]

/-- Sum of all weights of the expected-header table (`total_weight`). -/
def totalWeight : ℚ :=
  (EXPECTED_HEADERS.map (fun p => p.2)).sum

/-- Sum of weights of the expected headers present in `H` (`present_weight`). -/
def presentWeight (H : HeaderSet) : ℚ :=
  (EXPECTED_HEADERS.map (fun p => if hasHeader H p.1 then p.2 else 0)).sum

/-- Weighted completeness score, `extract_features.py` line 172:
`present_weight / total_weight if total_weight > 0 else 0`. -/
def completeness (H : HeaderSet) : ℚ :=
  if 0 < totalWeight then presentWeight H / totalWeight else 0

/- ### User-Agent pattern tables (`extract_features.py` lines 29-55) -/

/-- Regex word character (`\w`): ASCII letter, digit or underscore. -/
def isWordChar (c : Char) : Bool := c.isAlphanum || c = '_'

/-- Search for `w` at a word boundary (`\b w \b`), scanning `l`; `prev` is the
character just before `l` (`none` at string start). -/
def wordSearch (w : List Char) (prev : Option Char) : List Char → Bool
  | [] => false
  | c :: rest =>
    (w.isPrefixOf (c :: rest)
      && (match prev with | none => true | some p => !isWordChar p)
      && (match (c :: rest).drop w.length with
          | [] => true
          | d :: _ => !isWordChar d))
    || wordSearch w (some c) rest

/-- Python `re.search(r'\b' + w + r'\b', s, re.IGNORECASE)` for the literal
words of `SUSPICIOUS_UA_PATTERNS` (each begins and ends with a word char). -/
def containsWordCI (s w : String) : Bool :=
  wordSearch (lowerStr w).data none (lowerStr s).data

/-- `SUSPICIOUS_UA_PATTERNS`: word, severity (source order). -/
def SUSPICIOUS_UA_PATTERNS : List (String × ℚ) :=
  [("curl", 1), ("wget", 1), ("python-requests", 1), ("scrapy", 1),
   ("Go-http-client", 1),
   ("bot", 7/10), ("spider", 7/10), ("crawler", 7/10), ("scraper", 7/10),
   ("Java", 2/5), ("Ruby", 2/5), ("Perl", 2/5)]

/-- UA suspicion score, `extract_features.py` lines 179-183: maximum severity
over all matching patterns (no early exit). -/
def uaSuspicion (ua : String) : ℚ :=
  SUSPICIOUS_UA_PATTERNS.foldl
    (fun acc p => if containsWordCI ua p.1 then max acc p.2 else acc) 0

/-- Search for the literal `pat` immediately followed by a digit
(models `re.search(r'<pat>\d+', s)`, case-sensitive). -/
def litThenDigit (pat : List Char) : List Char → Bool
  | [] => false
  | c :: rest =>
    (pat.isPrefixOf (c :: rest)
      && (match (c :: rest).drop pat.length with
          | d :: _ => d.isDigit
          | [] => false))
    || litThenDigit pat rest

/-- `LEGITIMATE_UA_PATTERNS` as matchers (case-sensitive, source order).
`Mozilla/5\.0` and `AppleWebKit` are literal substrings; the rest are a
literal followed by `\d+`. -/
def LEGITIMATE_UA_MATCHERS : List (String → Bool) :=
  [fun ua => containsSub ua "Mozilla/5.0",
   fun ua => containsSub ua "AppleWebKit",
   fun ua => litThenDigit "Chrome/".data ua.data,
   fun ua => litThenDigit "Safari/".data ua.data,
   fun ua => litThenDigit "Firefox/".data ua.data,
   fun ua => litThenDigit "Edge/".data ua.data]

/-- `legitimate_score`, `extract_features.py` line 186. -/
def legitimateScore (ua : String) : ℚ :=
  ((LEGITIMATE_UA_MATCHERS.countP (fun m => m ua)) : ℚ)
    / ((LEGITIMATE_UA_MATCHERS.length) : ℚ)

/- ### Entropy and diversity (`extract_features.py` lines 58-86) -/

/-- `_calculate_entropy`: Shannon entropy over character frequencies.  The
`Counter` iterates each distinct character once (`dedup`); the `p > 0` guard
of the source is vacuous (counts are positive). -/
noncomputable def calcEntropy (s : String) : ℝ :=
  if s.data = [] then 0
  else -((s.data.dedup.map (fun c =>
      ((s.data.count c : ℝ) / (s.data.length : ℝ))
        * Real.logb 2 ((s.data.count c : ℝ) / (s.data.length : ℝ)))).sum)

/-- `_calculate_char_diversity`: distinct characters / length. -/
def charDiversity (s : String) : ℚ :=
  if s.data = [] then 0 else ((s.data.dedup.length : ℚ) / (s.data.length : ℚ))

/- ### Encoding anomalies (`extract_features.py` lines 89-108) -/

/-- Regex `[0-9A-Fa-f]`. -/
def isHexDigit (c : Char) : Bool :=
  c.isDigit || ('a' ≤ c && c ≤ 'f') || ('A' ≤ c && c ≤ 'F')

/-- Number of non-overlapping matches of `%[0-9A-Fa-f]{2}`
(`re.findall`, left to right). -/
def countPctHex : List Char → ℕ
  | '%' :: h1 :: h2 :: rest =>
    if isHexDigit h1 && isHexDigit h2 then 1 + countPctHex rest
    else countPctHex (h1 :: h2 :: rest)
  | _ :: rest => countPctHex rest
  | [] => 0

/-- Character class `[A-Za-z0-9+/]` of the base64 pattern. -/
def isB64Char (c : Char) : Bool := c.isAlphanum || c = '+' || c = '/'

/-- Whole-list match of `[A-Za-z0-9+/]{20,}={0,2}`. -/
def b64Core (l : List Char) : Bool :=
  let body := l.takeWhile isB64Char
  let rest := l.drop body.length
  decide (body.length ≥ 20) && decide (rest.length ≤ 2) && rest.all (fun c => c = '=')

/-- Python `re.search(r'^[A-Za-z0-9+/]{20,}={0,2}$', s)`: anchored at the
start; `$` matches at the end or just before one final newline. -/
def searchB64 (s : String) : Bool :=
  b64Core s.data
    || (match s.data.getLast? with
        | some '\n' => b64Core s.data.dropLast
        | _ => false)

/-- Whole-list match of `[0-9a-fA-F]{16,}`. -/
def hexCore (l : List Char) : Bool :=
  decide (l.length ≥ 16) && l.all isHexDigit

/-- Python `re.search(r'^[0-9a-fA-F]{16,}$', s)` (same `$` semantics). -/
def searchHexRun (s : String) : Bool :=
  hexCore s.data
    || (match s.data.getLast? with
        | some '\n' => hexCore s.data.dropLast
        | _ => false)

/-- `_detect_encoding_anomalies`. -/
def encodingAnomalyScore (v : String) : ℚ :=
  let urlEnc : ℚ := ((countPctHex v.data * 3 : ℕ) : ℚ) / ((max v.data.length 1 : ℕ) : ℚ)
  min ((if urlEnc > 3/10 then (1/2 : ℚ) else 0)
       + (if searchB64 v then (3/10 : ℚ) else 0)
       + (if searchHexRun v then (3/10 : ℚ) else 0)) 1

/- ### Structural analysis (`extract_features.py` lines 111-151) -/

/-- The five buckets of the `case_patterns` counter. -/
inductive CaseBucket
  | lower | upper | title | httpStandard | mixed
  deriving DecidableEq, Repr

/-- Python `str.islower()` (ASCII): at least one cased character and no
uppercase one. -/
def pyIsLower (s : String) : Bool :=
  s.data.any (fun c => c.isUpper || c.isLower) && s.data.all (fun c => !c.isUpper)

/-- Python `str.isupper()` (ASCII). -/
def pyIsUpper (s : String) : Bool :=
  s.data.any (fun c => c.isUpper || c.isLower) && s.data.all (fun c => !c.isLower)

/-- Python `str.split('-')` on the character list (at least one segment,
empty segments kept). -/
def splitDash : List Char → List (List Char)
  | [] => [[]]
  | c :: rest =>
    if c = '-' then [] :: splitDash rest
    else match splitDash rest with
         | s :: ss => (c :: s) :: ss
         | [] => [[c]]

/-- `all(part[0].isupper() for part in key.split('-') if part)`. -/
def segsStartUpper (k : String) : Bool :=
  ((splitDash k.data).filter (fun p => p ≠ [])).all
    (fun p => match p with
              | c :: _ => c.isUpper
              | [] => true)

/-- Case classification of one header name, `extract_features.py` lines
132-142.  The empty name makes the source raise `IndexError` at `key[0]`
(reached because `"".islower()` and `"".isupper()` are both false), hence
`none`. -/
def caseClass (k : String) : Option CaseBucket :=
  if pyIsLower k then some .lower
  else if pyIsUpper k then some .upper
  else match k.data with
    | [] => none
    | c :: rest =>
      some (if c.isUpper && pyIsLower (String.mk rest) then .title
            else if k.data.contains '-' && segsStartUpper k then .httpStandard
            else .mixed)

/-- `typical_order` of `_analyze_header_structure`. -/
def typicalOrder : List String :=
  ["Host", "User-Agent", "Accept", "Accept-Language",
   "Accept-Encoding", "Referer", "Cookie"]

/-- `order_score` accumulation (lines 122-126). -/
def orderScore (keys : List String) : ℚ :=
  (typicalOrder.enum.map (fun p =>
    if keys.contains p.2 then
      ((((p.1 : ℤ) - (keys.indexOf p.2 : ℤ)).natAbs : ℕ) : ℚ) / ((typicalOrder.length) : ℚ)
    else 0)).sum

/-- `header_order_deviation` (line 128). -/
def orderDeviation (keys : List String) : ℚ :=
  orderScore keys / ((max typicalOrder.length 1 : ℕ) : ℚ)

/-- The classification loop over all header names (lines 131-142); `none` as
soon as one name makes the source raise. -/
def classesOf : HeaderSet → Option (List CaseBucket)
  | [] => some []
  | p :: rest =>
    match caseClass p.1, classesOf rest with
    | some c, some cs => some (c :: cs)
    | _, _ => none

/-- `_analyze_header_structure`: order deviation and case-consistency pair;
`none` when some header name is empty (source raises). -/
def headerStructure (H : HeaderSet) : Option (ℚ × ℚ) :=
  match classesOf H with
  | none => none
  | some classes =>
    some (orderDeviation (H.map Prod.fst),
          if classes.length > 0 then
            ((classes.countP (fun c => c = CaseBucket.httpStandard)) : ℚ)
              / ((classes.length) : ℚ)
          else 0)

/- ### Remaining per-set features (`extract_features.py` lines 196-280) -/

/-- Lengths of all header values. -/
def valueLengths (H : HeaderSet) : List ℕ := H.map (fun p => p.2.length)

/-- Count of header names starting with `"X-"` (line 229). -/
def xHeaderCount (H : HeaderSet) : ℕ :=
  H.countP (fun p => startsWithPy p.1 "X-")

/-- `duplicate_score` (lines 233-239): unordered pairs of names equal after
lowercasing. -/
def dupCount : List String → ℕ
  | [] => 0
  | k :: rest => rest.countP (fun k2 => lowerStr k2 == lowerStr k) + dupCount rest

/-- Python `\s` on ASCII text. -/
def isPySpace (c : Char) : Bool :=
  c = ' ' || c = '\t' || c = '\n' || c = '\r' || c = '\x0b' || c = '\x0c'

/-- `re.search(r'[;\s].*[<>]', s)`: an `<` or `>` strictly preceded by a `;`
or whitespace character (`.` cannot cross a newline, but a newline is itself
in `[;\s]`, so a single sticky flag is exact). -/
def semiThenAngle (flag : Bool) : List Char → Bool
  | [] => false
  | c :: rest =>
    if flag && (c = '<' || c = '>') then true
    else semiThenAngle (flag || c = ';' || isPySpace c) rest

/-- One matcher and severity per entry of `suspicious_mime_types`
(lines 243-262, source order). -/
def MIME_MATCHERS : List ((String → Bool) × ℚ) :=
  [(fun ct => containsSubCI ct "application/x-msdownload", 4/5),
   (fun ct => containsSubCI ct "application/x-sh", 7/10),
   (fun ct => containsSubCI ct "application/x-executable", 4/5),
   (fun ct => containsSubCI ct "application/hta", 9/10),
   (fun ct => containsSubCI ct "application/x-httpd-php", 3/5),
   (fun ct => containsSubCI ct "text/scriptlet", 7/10),
   (fun ct => containsSubCI ct "multipart/x-mixed-replace", 1/2),
   (fun ct => containsSubCI ct "application/octet-stream", 3/10),
   (fun ct =>
      ("text/plain".data.isPrefixOf (lowerStr ct).data)
        && listContainsSub "<script".data
             (((lowerStr ct).data.drop 10).takeWhile (fun c => c ≠ '\n')), 9/10),
   (fun ct => semiThenAngle false ct.data, 3/5),
   (fun ct => ct.data = [] || ct.data = ['\n'], 2/5)]

/-- The `for pattern ... break` loop over `suspicious_mime_types`
(lines 264-268): running max, stopping at the first match. -/
def mimeLoop (acc : ℚ) : List ((String → Bool) × ℚ) → String → ℚ
  | [], _ => acc
  | (m, sev) :: rest, ct => if m ct then max acc sev else mimeLoop acc rest ct

/-- `mime_suspicion_score` of a Content-Type value. -/
def mimeSuspicion (ct : String) : ℚ := mimeLoop 0 MIME_MATCHERS ct

/-- One header value matches some entry of `injection_patterns`
(lines 273-279): `[\r\n]`, `%0[dD]%0[aA]`, `%0[aA]` or `%0[dD]`. -/
def hasInjection (v : String) : Bool :=
  v.data.contains '\r' || v.data.contains '\n'
    || containsSub (lowerStr v) "%0d%0a"
    || containsSub (lowerStr v) "%0a"
    || containsSub (lowerStr v) "%0d"

/-- `injection_score / max(len(header_dict), 1)` (line 280). -/
def injectionScore (H : HeaderSet) : ℚ :=
  ((H.countP (fun p => hasInjection p.2)) : ℚ) / ((max H.length 1 : ℕ) : ℚ)

/-- Sum of the per-value encoding anomaly scores (lines 210-216). -/
def sumEncoding (H : HeaderSet) : ℚ :=
  (H.map (fun p => encodingAnomalyScore p.2)).sum

/-- `total_entropy` over all header values. -/
noncomputable def totalValueEntropy (H : HeaderSet) : ℝ :=
  (H.map (fun p => calcEntropy p.2)).sum

/-- `max_entropy` over all header values (running max from 0). -/
noncomputable def maxValueEntropy (H : HeaderSet) : ℝ :=
  H.foldl (fun m p => max m (calcEntropy p.2)) 0

/-- The four value-length statistics (lines 196-205): average, max, min and
population standard deviation; `[0,0,0,0]` for the empty set. -/
noncomputable def lengthStats (H : HeaderSet) : List ℝ :=
  match valueLengths H with
  | [] => [0, 0, 0, 0]
  | x :: xs =>
    let lens := x :: xs
    let m : ℚ := ((lens.sum : ℕ) : ℚ) / ((lens.length : ℕ) : ℚ)
    [((m : ℚ) : ℝ),
     (((lens.foldl max x : ℕ)) : ℝ),
     (((lens.foldl min x : ℕ)) : ℝ),
     Real.sqrt ((((lens.map (fun v => ((v : ℚ) - m) ^ 2)).sum / ((lens.length : ℕ) : ℚ) : ℚ)) : ℝ)]

/-- `extract_features` (`extract_features.py` lines 154-282).  Returns `none`
exactly when the source raises (empty header name inside
`_analyze_header_structure`); otherwise the 35-slot feature vector in source
order. -/
noncomputable def extract_features (H : HeaderSet) : Option (List ℝ) :=
  match headerStructure H with
  | none => none
  | some (od, cc) =>
    let ua := getHeaderD H "User-Agent" ""
    some (
      (EXPECTED_HEADERS.map (fun p => if hasHeader H p.1 then (1 : ℝ) else 0))
      ++ [((completeness H : ℚ) : ℝ)]
      ++ [((ua.length : ℕ) : ℝ), ((uaSuspicion ua : ℚ) : ℝ),
          ((legitimateScore ua : ℚ) : ℝ), calcEntropy ua,
          ((charDiversity ua : ℚ) : ℝ)]
      ++ [((H.length : ℕ) : ℝ)]
      ++ lengthStats H
      ++ [totalValueEntropy H / ((max H.length 1 : ℕ) : ℝ),
          maxValueEntropy H,
          ((sumEncoding H / ((max H.length 1 : ℕ) : ℚ) : ℚ) : ℝ)]
      ++ [((od : ℚ) : ℝ), ((cc : ℚ) : ℝ)]
      ++ [((xHeaderCount H : ℕ) : ℝ), ((dupCount (H.map Prod.fst) : ℕ) : ℝ),
          ((mimeSuspicion (getHeaderD H "Content-Type" "") : ℚ) : ℝ),
          ((injectionScore H : ℚ) : ℝ)])

/-- Slot `i` of the feature vector of `H`, when the extractor returns. -/
noncomputable def featureSlot (H : HeaderSet) (i : ℕ) : Option ℝ :=
  (extract_features H).bind (fun v => v.get? i)

/-- Python `s.lower().replace('-', '_')` used for feature names. -/
def pyDashToUnderscore (s : String) : String :=
  String.mk (s.data.map (fun c => if c = '-' then '_' else c))

/-- `get_feature_names` (`extract_features.py` lines 285-334). -/
def get_feature_names : List String :=
  (EXPECTED_HEADERS.map (fun p => "has_" ++ pyDashToUnderscore (lowerStr p.1)))
  ++ ["weighted_header_completeness"]
  ++ ["ua_length", "ua_suspicion_score", "ua_legitimate_score", "ua_entropy",
      "ua_char_diversity"]
  ++ ["header_count", "avg_value_length", "max_value_length",
      "min_value_length", "std_value_length"]
  ++ ["avg_entropy", "max_entropy", "encoding_anomaly_score"]
  ++ ["header_order_deviation", "case_consistency"]
  ++ ["x_header_count", "duplicate_header_score", "suspicious_mime_type",
      "injection_attempt_score"]

/-- Per-name case-consistency formula: names classified `http_standard`
divided by the number of headers, 0 for the empty set. -/
def caseConsistencyOf (H : HeaderSet) : ℚ :=
  if H.length = 0 then 0
  else ((H.countP (fun p => caseClass p.1 = some CaseBucket.httpStandard)) : ℚ)
    / ((H.length) : ℚ)

/-- First-match formulation of the suspicious-MIME score, following the
spec's wording: the severity of the first entry whose pattern matches,
0 when none matches. -/
def mimeFirstMatch (ct : String) : ℚ :=
  match MIME_MATCHERS.find? (fun p => p.1 ct) with
  | some p => p.2
  | none => 0

/-- `SUSPICIOUS_HEADERS` of `heuristics.py` (name, severity, reason). -/
def SUSPICIOUS_HEADERS : List (String × String × String) :=
  [("X-Forwarded-Host", "high", "Often used in host header injection"),
   ("X-Original-URL", "high", "Can bypass security controls"),
   ("X-Rewrite-URL", "high", "Can bypass security controls"),
   ("X-Custom-IP-Authorization", "medium", "Non-standard auth header"),
   ("X-Originating-IP", "low", "May leak internal IP"),
   ("X-Remote-IP", "low", "May leak internal IP"),
   ("X-Client-IP", "low", "May leak internal IP"),
   ("X-Test", "low", "Testing header in production"),
   ("X-Debug", "medium", "Debug header in production"),
   ("X-Foo", "low", "Placeholder header")]

/-- `severity_scores = {"high": 0.4, "medium": 0.2, "low": 0.1}`. -/
def severityScore (s : String) : ℚ :=
  if s = "high" then 2/5 else if s = "medium" then 1/5
  else if s = "low" then 1/10 else 0

/- ### Embedded IPv4 detection (`_check_ip_anomalies`) -/

/-- One `(?:\d{1,3}\.)` group of the IP regex: with a maximal digit run of
more than three digits every 1-3 digit prefix is followed by another digit
and never by the required dot, so the run must be 1-3 digits long and
followed by a literal dot. -/
def grabGroup (l : List Char) : Option (List Char × List Char) :=
  let ds := l.takeWhile Char.isDigit
  if 1 ≤ ds.length && ds.length ≤ 3 then
    match l.drop ds.length with
    | '.' :: rest => some (ds, rest)
    | _ => none
  else none

/-- The final `\d{1,3}\b` of the IP regex. -/
def grabLast (l : List Char) : Option (List Char × List Char) :=
  let ds := l.takeWhile Char.isDigit
  if 1 ≤ ds.length && ds.length ≤ 3 then
    match l.drop ds.length with
    | [] => some (ds, [])
    | c :: rest => if isWordChar c then none else some (ds, c :: rest)
  else none

/-- Match `(?:\d{1,3}\.){3}\d{1,3}\b` at the head of `l` (the leading `\b`
is checked by the caller); returns matched text and remaining input. -/
def matchIPv4 (l : List Char) : Option (List Char × List Char) := do
  let (d1, r1) ← grabGroup l
  let (d2, r2) ← grabGroup r1
  let (d3, r3) ← grabGroup r2
  let (d4, r4) ← grabLast r3
  some (d1 ++ '.' :: d2 ++ '.' :: d3 ++ '.' :: d4, r4)

/-- `re.findall(r'\b(?:\d{1,3}\.){3}\d{1,3}\b', v)`: left-to-right
non-overlapping scan.  The fuel argument (initially the input length, which
strictly bounds the number of steps) makes the recursion structural. -/
def findIPs : ℕ → Option Char → List Char → List (List Char)
  | 0, _, _ => []
  | _, _, [] => []
  | fuel + 1, prev, c :: rest =>
    let bOk := match prev with | none => true | some p => !isWordChar p
    if bOk then
      match matchIPv4 (c :: rest) with
      | some (m, r) => m :: findIPs fuel (some (m.getLastD '0')) r
      | none => findIPs fuel (some c) rest
    else findIPs fuel (some c) rest

/-- Numeric value of a digit run. -/
def digitsVal (l : List Char) : ℕ :=
  l.foldl (fun a c => 10 * a + (c.toNat - '0'.toNat)) 0

/-- One dotted-quad octet under `ipaddress.ip_address` rules (modelled from
the Python standard library): 0-255, leading zeros rejected. -/
def parseOctet (ds : List Char) : Option ℕ :=
  match ds with
  | [] => none
  | ['0'] => some 0
  | '0' :: _ :: _ => none
  | _ => if digitsVal ds ≤ 255 then some (digitsVal ds) else none

/-- Python `str.split(sep)` for a single-character separator. -/
def splitOnChar (sep : Char) : List Char → List (List Char)
  | [] => [[]]
  | c :: rest =>
    if c = sep then [] :: splitOnChar sep rest
    else match splitOnChar sep rest with
         | s :: ss => (c :: s) :: ss
         | [] => [[c]]

/-- Parse a matched dotted quad into its four octets. -/
def parseIPv4 (m : List Char) : Option (ℕ × ℕ × ℕ × ℕ) :=
  match splitOnChar '.' m with
  | [a, b, c, d] => do
    let oa ← parseOctet a
    let ob ← parseOctet b
    let oc ← parseOctet c
    let od ← parseOctet d
    some (oa, ob, oc, od)
  | _ => none

/-- `IPv4Address.is_private`, modelled from the Python standard library's
documented network list. -/
def isPrivateIPv4 (a b c d : ℕ) : Bool :=
  a = 0 || a = 10 || a = 127
    || (a = 169 && b = 254)
    || (a = 172 && 16 ≤ b && b ≤ 31)
    || (a = 192 && b = 0 && c = 0 && (d ≤ 7 || d = 170 || d = 171))
    || (a = 192 && b = 0 && c = 2)
    || (a = 192 && b = 168)
    || (a = 198 && (b = 18 || b = 19))
    || (a = 198 && b = 51 && c = 100)
    || (a = 203 && b = 0 && c = 113)
    || 240 ≤ a

/-- Anomaly records for one extracted IP string, in source order
(`type`, `value`, `severity`); a loopback address is also private, so it is
recorded twice, as in the source. -/
def ipAnomaliesOf (m : List Char) : List (String × String × String) :=
  match parseIPv4 m with
  | none => [("invalid_ip", String.mk m, "medium")]
  | some (a, b, c, d) =>
    (if isPrivateIPv4 a b c d then [("private_ip", String.mk m, "low")] else [])
    ++ (if a = 127 then [("loopback_ip", String.mk m, "medium")] else [])
    ++ (if 224 ≤ a && a ≤ 239 then [("multicast_ip", String.mk m, "low")] else [])

/-- `_check_ip_anomalies` for one header value. -/
def checkIpAnomalies (v : String) : List (String × String × String) :=
  ((findIPs v.data.length none v.data).map ipAnomaliesOf).flatten

/- ### Encoding chains (`_check_encoding_chains`) -/

/-- `re.search(r'%25[0-9A-Fa-f]{2}', v)`. -/
def dblScan : List Char → Bool
  | c1 :: c2 :: c3 :: c4 :: c5 :: rest =>
    (c1 = '%' && c2 = '2' && c3 = '5' && isHexDigit c4 && isHexDigit c5)
      || dblScan (c2 :: c3 :: c4 :: c5 :: rest)
  | _ => false

/-- One encoding-chain finding (lines 135-151 of `heuristics.py`). -/
inductive EncodingIssue
  | doubleUrl (sample : String)                 -- severity "medium"
  | mixedEnc (urlCount plusCount : ℕ)           -- severity "low"
  deriving DecidableEq, Repr

/-- `_check_encoding_chains` for one header value. -/
def checkEncodingChains (v : String) : List EncodingIssue :=
  (if dblScan v.data then [EncodingIssue.doubleUrl (String.mk (v.data.take 50))] else [])
  ++ (if v.data.contains '%' && v.data.contains '+' then
        (if countPctHex v.data > 0 && v.data.count '+' > 2 then
           [EncodingIssue.mixedEnc (countPctHex v.data) (v.data.count '+')]
         else [])
      else [])

/- ### `difflib.SequenceMatcher` similarity (`_calculate_mutation_score`) -/

/-- Length of the common prefix of two lists. -/
def commonRun : List Char → List Char → ℕ
  | a :: as, b :: bs => if a = b then 1 + commonRun as bs else 0
  | _, _ => 0

/-- All index pairs (i, j), i ascending then j ascending. -/
def allPairs (la lb : ℕ) : List (ℕ × ℕ) :=
  (List.range la).flatMap (fun i => (List.range lb).map (fun j => (i, j)))

/-- `SequenceMatcher.find_longest_match` (no junk: the inputs here are
short, so difflib's autojunk never fires): the longest matching block,
ties resolved to the earliest start in `a`, then in `b`; `(i, j, k)`. -/
def findLongestMatch (a b : List Char) : ℕ × ℕ × ℕ :=
  (allPairs a.length b.length).foldl
    (fun best p =>
      let k := commonRun (a.drop p.1) (b.drop p.2)
      if k > best.2.2 then (p.1, p.2, k) else best)
    (0, 0, 0)

/-- Total size of all matching blocks (`get_matching_blocks`): recursively
split around the longest match.  Fuel (the summed length, which strictly
bounds the recursion depth) makes the recursion structural. -/
def smMatchSum : ℕ → List Char → List Char → ℕ
  | 0, _, _ => 0
  | fuel + 1, a, b =>
    let r := findLongestMatch a b
    if r.2.2 = 0 then 0
    else smMatchSum fuel (a.take r.1) (b.take r.2.1)
         + r.2.2
         + smMatchSum fuel (a.drop (r.1 + r.2.2)) (b.drop (r.2.1 + r.2.2))

/-- `SequenceMatcher(None, sa, sb).ratio() = 2*M/T` with `T` the summed
length (1.0 when both strings are empty, per `_calculate_ratio`). -/
def smSimilarity (sa sb : String) : ℚ :=
  if sa.data.length + sb.data.length = 0 then 1
  else (2 * ((smMatchSum (sa.data.length + sb.data.length) sa.data sb.data : ℕ) : ℚ))
    / (((sa.data.length + sb.data.length : ℕ)) : ℚ)

/-- The source's `0.7 < similarity < 1.0` test, equivalently in integers:
with `T = len(a)+len(b)` and `M` the match total, the ratio `2M/T` is in
`(0.7, 1.0)` iff `7T < 20M` and `2M < T` (exact for the short names
compared here, where the float ratio is computed from small exact
integers and cannot straddle the comparison bounds). -/
def typoRange (k std : String) : Bool :=
  let t := k.data.length + std.data.length
  let m := smMatchSum t k.data std.data
  (7 * t < 20 * m) && (2 * m < t)

/- ### Mutation score (`_calculate_mutation_score`) -/

/-- `standard_headers` map: lowercase name to standard casing. -/
def standardHeadersMap : List (String × String) :=
  [("host", "Host"), ("user-agent", "User-Agent"), ("accept", "Accept"),
   ("content-type", "Content-Type"), ("authorization", "Authorization")]

/-- Case-mutation messages (lines 172-177): standard headers present with a
non-standard exact casing. -/
def caseMutations (H : HeaderSet) : List String :=
  H.filterMap (fun p =>
    match standardHeadersMap.find? (fun q => q.1 == lowerStr p.1) with
    | some q => if p.1 ≠ q.2 then some ("Non-standard casing: " ++ p.1) else none
    | none => none)

/-- Typo messages (lines 180-185): header names similar (ratio strictly
between 0.7 and 1.0) to some standard-header name, both lowercased. -/
def typoMsgs (H : HeaderSet) : List String :=
  (H.map Prod.fst).flatMap (fun k =>
    (standardHeadersMap.map Prod.snd).filterMap (fun std =>
      if typoRange (lowerStr k) (lowerStr std) then
        some ("Possible typo: " ++ k ++ " (similar to " ++ std ++ ")")
      else none))

/-- Unusual-separator messages (lines 188-191). -/
def sepMsgs (H : HeaderSet) : List String :=
  H.filterMap (fun p =>
    if containsSub p.2 "|" || containsSub p.2 ";;" || containsSub p.2 "::" then
      some ("Unusual separator in " ++ p.1)
    else none)

/-- `_calculate_mutation_score`: weighted count, clamped to 1. -/
def mutationScore (H : HeaderSet) : ℚ :=
  min ((1/5) * ((caseMutations H).length : ℚ)
       + (3/10) * ((typoMsgs H).length : ℚ)
       + (1/10) * ((sepMsgs H).length : ℚ)) 1

/-- The accompanying `mutations` message list, in accumulation order. -/
def mutationMsgs (H : HeaderSet) : List String :=
  caseMutations H ++ typoMsgs H ++ sepMsgs H

/- ### Timing anomalies (`_check_timing_anomalies`) -/

/-- `date_headers` in source order. -/
def dateHeadersList : List String :=
  ["If-Modified-Since", "If-Unmodified-Since", "Date", "Last-Modified"]

/-- The check for one present date header: sentinel bad substrings first;
then parse and compare with `now` (`timedelta.days` floors, hence `fdiv`);
parse failures yield the invalid-format finding.  Result is
(header, issue, severity). -/
def timingAnomaly (pd : String → Option ℤ) (now : ℤ) (header value : String) :
    Option (String × String × String) :=
  if containsSub value "9999" || containsSub value "0000"
      || containsSub value "1970-01-01" then
    some (header, "Suspicious date value", "medium")
  else
    match pd value with
    | none => some (header, "Invalid date format", "medium")
    | some d =>
      if d > now then
        some (header, "Future date", if (d - now).fdiv 86400 < 7 then "low" else "medium")
      else if (now - d).fdiv 86400 > 3650 then
        some (header, "Very old date (>10 years)", "low")
      else none

/-- `_check_timing_anomalies`: findings over the four date headers. -/
def checkTiming (pd : String → Option ℤ) (now : ℤ) (H : HeaderSet) :
    List (String × String × String) :=
  dateHeadersList.filterMap (fun h =>
    if hasHeader H h then timingAnomaly pd now h (getHeaderD H h "") else none)

/- ### The risk report (`analyze_headers`, lines 196-316) -/

/-- One entry of the `content_anomalies` list. -/
inductive ContentAnomaly
  | ipAnoms (l : List (String × String × String))
  | shortUA (len : ℕ) (severity : String)
  | autoTool (keyword : String) (severity : String)
  | timingAnoms (l : List (String × String × String))
  deriving DecidableEq, Repr

/-- The result dictionary of `analyze_headers`.  `mutation_score` is `none`
when the key is never added (score 0); suspicious-header findings are
(header, truncated value, severity, reason); structural anomalies are
(type, header, severity). -/
structure RiskReport where
  risk_score : ℚ
  missing_critical_headers : List String
  missing_important_headers : List String
  suspicious_headers : List (String × String × String × String)
  encoding_issues : List EncodingIssue
  structural_anomalies : List (String × String × String)
  content_anomalies : List ContentAnomaly
  mutation_indicators : List String
  mutation_score : Option ℚ
  risk_level : String
  deriving DecidableEq, Repr

/-- `critical_headers` (each missing one adds 0.3). -/
def criticalHeaders : List String := ["Host", "User-Agent"]

/-- `important_headers` (each missing one adds 0.1). -/
def importantHeaders : List String := ["Accept", "Accept-Encoding", "Accept-Language"]

/-- Missing critical headers, in table order. -/
def missingCritical (H : HeaderSet) : List String :=
  criticalHeaders.filter (fun h => !hasHeader H h)

/-- Missing important headers, in table order. -/
def missingImportant (H : HeaderSet) : List String :=
  importantHeaders.filter (fun h => !hasHeader H h)

/-- Suspicious-header findings (lines 228-236). -/
def suspiciousFindings (H : HeaderSet) : List (String × String × String × String) :=
  H.filterMap (fun p =>
    match SUSPICIOUS_HEADERS.find? (fun q => q.1 == p.1) with
    | some q => some (p.1, String.mk (p.2.data.take 100), q.2.1, q.2.2)
    | none => none)

/-- All encoding-chain findings over the header values (lines 239-242). -/
def encodingIssuesAll (H : HeaderSet) : List EncodingIssue :=
  (H.map (fun p => checkEncodingChains p.2)).flatten

/-- Total number of IP anomalies over all header values (0.05 each). -/
def ipAnomalyTotal (H : HeaderSet) : ℕ :=
  (H.map (fun p => (checkIpAnomalies p.2).length)).sum

/-- The per-header nonempty IP anomaly groups recorded in
`content_anomalies` (lines 245-248). -/
def ipContentAnoms (H : HeaderSet) : List ContentAnomaly :=
  H.filterMap (fun p =>
    if (checkIpAnomalies p.2).isEmpty then none
    else some (ContentAnomaly.ipAnoms (checkIpAnomalies p.2)))

/-- Structural anomalies: raw CR/LF (header_injection, +0.5) and NUL bytes
(null_byte, +0.4), per header in order (lines 251-266). -/
def structuralAnoms (H : HeaderSet) : List (String × String × String) :=
  H.flatMap (fun p =>
    (if p.2.data.contains '\r' || p.2.data.contains '\n' then
       [("header_injection", p.1, "high")] else [])
    ++ (if p.2.data.contains '\x00' then [("null_byte", p.1, "high")] else []))

/-- Number of header values containing a raw CR or LF. -/
def injCount (H : HeaderSet) : ℕ :=
  H.countP (fun p => p.2.data.contains '\r' || p.2.data.contains '\n')

/-- Number of header values containing a NUL byte. -/
def nullCount (H : HeaderSet) : ℕ :=
  H.countP (fun p => p.2.data.contains '\x00')

/-- `automation_keywords` in source order. -/
def automationKeywords : List String :=
  ["bot", "crawler", "spider", "scraper", "curl", "wget", "python", "java"]

/-- The short-UA test fires for a nonempty UA under 10 characters. -/
def uaShortFlag (H : HeaderSet) : Bool :=
  let ua := getHeaderD H "User-Agent" ""
  ua ≠ "" && ua.length < 10

/-- First automation keyword found in the (nonempty) UA, lowercased
substring match with break (lines 281-290). -/
def uaAutoKeyword (H : HeaderSet) : Option String :=
  let ua := getHeaderD H "User-Agent" ""
  if ua = "" then none
  else automationKeywords.find? (fun k => containsSub (lowerStr ua) (lowerStr k))

/-- UA-specific content anomalies, in source order. -/
def uaContentAnoms (H : HeaderSet) : List ContentAnomaly :=
  (if uaShortFlag H then
     [ContentAnomaly.shortUA (getHeaderD H "User-Agent" "").length "medium"] else [])
  ++ (match uaAutoKeyword H with
      | some k =>
        [ContentAnomaly.autoTool k (if k = "bot" || k = "crawler" then "low" else "medium")]
      | none => [])

/-- The full `content_anomalies` list: per-header IP groups, then the UA
findings, then the timing group appended last (line 302). -/
def contentAnomaliesOf (pd : String → Option ℤ) (now : ℤ) (H : HeaderSet) :
    List ContentAnomaly :=
  ipContentAnoms H ++ uaContentAnoms H
  ++ (if (checkTiming pd now H).isEmpty then []
      else [ContentAnomaly.timingAnoms (checkTiming pd now H)])

/-- The accumulated (pre-clamp) risk score: the sum of every `+=` applied to
`results["risk_score"]` in `analyze_headers`, component by component.  The
timing block (lines 299-303) adds a flat 0.1 when the anomaly list is
nonempty, regardless of how many anomalies it holds. -/
def riskRaw (H : HeaderSet) (pd : String → Option ℤ) (now : ℤ) : ℚ :=
  (3/10) * ((missingCritical H).length : ℚ)
  + (1/10) * ((missingImportant H).length : ℚ)
  + ((suspiciousFindings H).map (fun f => severityScore f.2.2.1)).sum
  + (1/10) * ((encodingIssuesAll H).length : ℚ)
  + (1/20) * ((ipAnomalyTotal H) : ℚ)
  + (1/2) * ((injCount H) : ℚ)
  + (2/5) * ((nullCount H) : ℚ)
  + (if uaShortFlag H then 1/5 else 0)
  + (if (uaAutoKeyword H).isSome then 3/20 else 0)
  + (if mutationScore H > 0 then mutationScore H * (3/10) else 0)
  + (if (checkTiming pd now H).isEmpty then 0 else 1/10)

/-- `analyze_headers` (`heuristics.py` lines 196-316). -/
def analyze_headers (H : HeaderSet) (pd : String → Option ℤ) (now : ℤ) : RiskReport :=
  let rs := min (riskRaw H pd now) 1
  { risk_score := rs
    missing_critical_headers := missingCritical H
    missing_important_headers := missingImportant H
    suspicious_headers := suspiciousFindings H
    encoding_issues := encodingIssuesAll H
    structural_anomalies := structuralAnoms H
    content_anomalies := contentAnomaliesOf pd now H
    mutation_indicators := if mutationScore H > 0 then mutationMsgs H else []
    mutation_score := if mutationScore H > 0 then some (mutationScore H) else none
    risk_level := if rs < 3/10 then "low" else if rs < 3/5 then "medium" else "high" }

/-- C5 counterexample input: all critical and important headers present,
and two date headers that both trip the sentinel bad-date patterns. -/
def twoBadDates : HeaderSet :=
  [("Host", "example.com"), ("User-Agent", "Mozilla/5.0"), ("Accept", "*/*"),
   ("Accept-Encoding", "gzip"), ("Accept-Language", "en"),
   ("Date", "9999"), ("Last-Modified", "0000")]

/-- C9 counterexample input: a single far-future `Date` header. -/
def dateOnly : HeaderSet := [("Date", "Thu, 01 Jan 2105 00:00:00 GMT")]

/-- `email.utils.parsedate_to_datetime` (standard library), modelled at the
single date value used here: 2105-01-01T00:00:00Z is 4260211200 seconds
after the epoch. -/
def pdRFC : String → Option ℤ :=
  fun v => if v = "Thu, 01 Jan 2105 00:00:00 GMT" then some 4260211200 else none

/-- `verdict = "suspicious" if prediction == -1 else "normal"`. -/
def voteVerdict (pred : ℤ) : String :=
  if pred = -1 then "suspicious" else "normal"

/-- One member vote as recorded in the result (lines 47-52). -/
structure ModelVote where
  model : String
  verdict : String
  score : ℚ
  confidence : ℚ
  deriving DecidableEq, Repr

/-- The vote records for a member list (name, score, prediction). -/
def mkVotes (members : List (String × ℚ × ℤ)) : List ModelVote :=
  members.map (fun m =>
    { model := m.1, verdict := voteVerdict m.2.2, score := m.2.1,
      confidence := |m.2.1| })

/-- `np.mean` (the claims never use the empty case; numpy's NaN there is
modelled as 0). -/
def npMean (scores : List ℚ) : ℚ :=
  if scores.length = 0 then 0 else scores.sum / (scores.length : ℚ)

/-- `np.median`: middle of the sorted scores, or the mean of the two middle
ones (empty case as in `npMean`). -/
def npMedian (scores : List ℚ) : ℚ :=
  let s := List.insertionSort (fun a b => a ≤ b) scores
  let n := s.length
  if n = 0 then 0
  else if n % 2 = 1 then s.getD (n / 2) 0
  else (s.getD (n / 2 - 1) 0 + s.getD (n / 2) 0) / 2

/-- `np.std`: population standard deviation (empty case as in `npMean`). -/
noncomputable def npStd (scores : List ℚ) : ℝ :=
  if scores.length = 0 then 0
  else Real.sqrt ((((scores.map (fun x => (x - npMean scores) ^ 2)).sum
    / (scores.length : ℚ) : ℚ)) : ℝ)

/-- The aggregate returned by `predict_ensemble_model`. -/
structure EnsembleResult where
  verdict : String
  avg_score : ℚ
  median_score : ℚ
  score_std : ℝ
  confidence : ℚ
  votes : List ModelVote
  vote_summary : String

/-- `predict_ensemble_model` (`predict.py` lines 34-86). -/
noncomputable def predict_ensemble_model (members : List (String × ℚ × ℤ)) :
    EnsembleResult :=
  let votes := mkVotes members
  let scores := members.map (fun m => m.2.1)
  let s := votes.countP (fun v => v.verdict == "suspicious")
  let t := votes.length
  { verdict :=
      if (s : ℚ) > (t : ℚ) / 2 then "suspicious"
      else if s = 0 then "normal"
      else "gray"
    avg_score := npMean scores
    median_score := npMedian scores
    score_std := npStd scores
    confidence :=
      if s = 0 || s = t then 1
      else |(s : ℚ) - (t : ℚ) / 2| / ((t : ℚ) / 2)
    votes := votes
    vote_summary := toString s ++ "/" ++ toString t ++ " suspicious" }

/-- The ensemble-mode final verdict of `main` (lines 151-161): heuristic
risk as tie-breaker for "gray". -/
def finalVerdictEnsemble (mlVerdict : String) (risk : ℚ) : String :=
  if mlVerdict = "gray" then
    if risk > 1/2 then "suspicious"
    else if risk < 1/5 then "normal"
    else "gray"
  else mlVerdict

/-- Number of member votes that read "suspicious". -/
def suspCount (members : List (String × ℚ × ℤ)) : ℕ :=
  (mkVotes members).countP (fun v => v.verdict == "suspicious")

/-- The concrete 4-member ensemble of the claim: two votes suspicious
(prediction -1) and two normal. -/
def fourVotes : List (String × ℚ × ℤ) :=
  [("iforest_a", 1/10, -1), ("iforest_b", 1/5, -1),
   ("iforest_c", 3/10, 1), ("iforest_d", 2/5, 1)]

/- ### Helper lemmas about the extractor -/

/-- The expected-header weights are all positive. -/
lemma expected_weights_pos : ∀ p ∈ EXPECTED_HEADERS, (0 : ℚ) < p.2 := by
  intro p hp
  fin_cases hp <;> norm_num

/-- The total weight of the expected-header table. -/
lemma totalWeight_val : totalWeight = 92/5 := by
  norm_num [totalWeight, EXPECTED_HEADERS]

/-- Membership in a key is preserved by appending more headers. -/
lemma hasHeader_append (H X : HeaderSet) (k : String) :
    hasHeader H k = true → hasHeader (H ++ X) k = true := by
  simp only [hasHeader, List.any_append, Bool.or_eq_true]
  exact Or.inl

/-- The `if`-indicator of one expected header is at most its weight. -/
lemma indicator_le_weight (H : HeaderSet) (p : String × ℚ) (hp : p ∈ EXPECTED_HEADERS) :
    (if hasHeader H p.1 then p.2 else 0) ≤ p.2 := by
  by_cases h : hasHeader H p.1 = true
  · simp [h]
  · simp only [Bool.not_eq_true] at h
    simp [h]
    exact le_of_lt (expected_weights_pos p hp)

/-- `presentWeight` is monotone under appending headers. -/
lemma presentWeight_mono (H X : HeaderSet) :
    presentWeight H ≤ presentWeight (H ++ X) := by
  apply List.sum_le_sum
  intro p hp
  by_cases h : hasHeader H p.1 = true
  · simp [h, hasHeader_append H X p.1 h]
  · simp only [Bool.not_eq_true] at h
    simp only [h, Bool.false_eq_true, if_false]
    by_cases h' : hasHeader (H ++ X) p.1 = true
    · simp [h']
      exact le_of_lt (expected_weights_pos p hp)
    · simp only [Bool.not_eq_true] at h'
      simp [h']

/-- `presentWeight` never exceeds `totalWeight`. -/
lemma presentWeight_le_total (H : HeaderSet) : presentWeight H ≤ totalWeight := by
  exact List.sum_le_sum (fun p hp => indicator_le_weight H p hp)

/-- Indicator-weight sums reach the full sum exactly when every entry is
present, provided all weights are positive. -/
lemma sum_indicator_eq_sum_iff (H : HeaderSet) :
    ∀ (l : List (String × ℚ)), (∀ p ∈ l, (0:ℚ) < p.2) →
      (((l.map (fun p => if hasHeader H p.1 then p.2 else 0)).sum
          = (l.map (fun p => p.2)).sum)
        ↔ ∀ p ∈ l, hasHeader H p.1 = true) := by
  intro l
  induction l with
  | nil => simp
  | cons q t ih =>
    intro hpos
    have hq : (0:ℚ) < q.2 := hpos q (List.mem_cons_self q t)
    have ht : ∀ p ∈ t, (0:ℚ) < p.2 := fun p hp => hpos p (List.mem_cons_of_mem q hp)
    have h1 : (if hasHeader H q.1 then q.2 else 0) ≤ q.2 := by
      by_cases h : hasHeader H q.1 = true
      · simp [h]
      · simp only [Bool.not_eq_true] at h
        simp [h]
        exact le_of_lt hq
    have h2 : ((t.map (fun p => if hasHeader H p.1 then p.2 else 0)).sum
        ≤ (t.map (fun p => p.2)).sum) := by
      apply List.sum_le_sum
      intro p hp
      by_cases h : hasHeader H p.1 = true
      · simp [h]
      · simp only [Bool.not_eq_true] at h
        simp [h]
        exact le_of_lt (ht p hp)
    simp only [List.map_cons, List.sum_cons]
    constructor
    · intro heq
      have he1 : (if hasHeader H q.1 then q.2 else 0) = q.2 := by linarith
      have he2 : ((t.map (fun p => if hasHeader H p.1 then p.2 else 0)).sum
          = (t.map (fun p => p.2)).sum) := by linarith
      intro p hp
      rcases List.mem_cons.mp hp with rfl | hpt
      · by_contra h
        simp only [Bool.not_eq_true] at h
        rw [h] at he1
        simp at he1
        exact absurd he1.symm (ne_of_gt hq)
      · exact ((ih ht).mp he2) p hpt
    · intro hall
      have hq' : hasHeader H q.1 = true := hall q (List.mem_cons_self q t)
      rw [hq']
      simp only [if_true]
      congr 1
      exact (ih ht).mpr (fun p hp => hall p (List.mem_cons_of_mem q hp))

/-- Length of the four value-length statistics. -/
lemma lengthStats_shape (H : HeaderSet) :
    ∃ a b c d : ℝ, lengthStats H = [a, b, c, d] := by
  unfold lengthStats
  cases valueLengths H with
  | nil => exact ⟨_, _, _, _, rfl⟩
  | cons x xs => exact ⟨_, _, _, _, rfl⟩

/-- Whenever the extractor returns a vector, it has exactly 35 slots. -/
lemma extract_length (H : HeaderSet) (v : List ℝ) :
    extract_features H = some v → v.length = 35 := by
  unfold extract_features
  cases hs : headerStructure H with
  | none => intro h; cases h
  | some p =>
    obtain ⟨od, cc⟩ := p
    intro h
    obtain ⟨a, b, c, d, hstats⟩ := lengthStats_shape H
    simp only [Option.some.injEq] at h
    subst h
    simp [hstats, EXPECTED_HEADERS]

/-- `totalWeight` is positive. -/
lemma totalWeight_pos : (0:ℚ) < totalWeight := by
  rw [totalWeight_val]; norm_num

/-- C7: the weighted-completeness slot is monotonically non-decreasing under
adding an expected header not yet present, and equals 1.0 exactly when all
entries of the expected-header weight table are present. -/
theorem C7_completeness_monotone_and_full :
    (∀ (H : HeaderSet) (h v : String) (w : ℚ),
        (h, w) ∈ EXPECTED_HEADERS → hasHeader H h = false →
        completeness H ≤ completeness (H ++ [(h, v)]))
    ∧ (∀ H : HeaderSet,
        completeness H = 1 ↔ ∀ p ∈ EXPECTED_HEADERS, hasHeader H p.1 = true) := by
  constructor
  · intro H h v w _ _
    unfold completeness
    rw [if_pos totalWeight_pos, if_pos totalWeight_pos]
    exact (div_le_div_iff_of_pos_right totalWeight_pos).mpr (presentWeight_mono H [(h, v)])
  · intro H
    unfold completeness
    rw [if_pos totalWeight_pos, div_eq_one_iff_eq (ne_of_gt totalWeight_pos)]
    exact sum_indicator_eq_sum_iff H EXPECTED_HEADERS expected_weights_pos

/-- Witness for C7 at a concrete input: adding the expected header `Host` to
the empty header set does not decrease the completeness score. -/
theorem C7_witness :
    (("Host", (2:ℚ)) ∈ EXPECTED_HEADERS ∧ hasHeader [] "Host" = false)
    ∧ completeness [] ≤ completeness ([] ++ [("Host", "v")]) :=
  ⟨⟨by simp [EXPECTED_HEADERS], rfl⟩,
   C7_completeness_monotone_and_full.1 [] "Host" "v" 2 (by simp [EXPECTED_HEADERS]) rfl⟩

/-- The extractor on the empty header set: all ratio-based slots default to 0;
the suspicious-MIME slot is 0.4 (the empty Content-Type pattern fires). -/
lemma extract_features_nil :
    extract_features []
      = some [0, 0, 0, 0, 0, 0, 0, 0, 0, 0, 0, 0, 0, 0, 0,
              0,
              0, 0, 0, 0, 0,
              0,
              0, 0, 0, 0,
              0, 0, 0,
              0, 0,
              0, 0, (2:ℝ)/5, 0] := by
  have hmime : mimeSuspicion "" = 2/5 := by
    simp +decide [mimeSuspicion, mimeLoop, MIME_MATCHERS]
    norm_num
  have hua : uaSuspicion "" = 0 := by
    simp +decide [uaSuspicion, SUSPICIOUS_UA_PATTERNS]
  have hleg : LEGITIMATE_UA_MATCHERS.countP (fun m => m "") = 0 := by decide
  have horder : orderScore [] = 0 := by
    simp +decide [orderScore, typicalOrder, List.enum, List.enumFrom]
  unfold extract_features headerStructure
  simp +decide [classesOf, getHeaderD, hasHeader, EXPECTED_HEADERS,
    completeness, presentWeight,
    totalWeight, hmime, hua, hleg, legitimateScore, LEGITIMATE_UA_MATCHERS,
    calcEntropy, charDiversity, lengthStats, valueLengths, totalValueEntropy,
    maxValueEntropy, sumEncoding, xHeaderCount, dupCount, injectionScore,
    orderDeviation, horder, typicalOrder]

/-- C1 counterexample: on the empty header set the extractor returns a
vector of length 35, not 34 — the spec's slot count omits one of the five
User-Agent slots. -/
theorem C1_counterexample :
    (extract_features []).map List.length = some 35 ∧ (35 : ℕ) ≠ 34 := by
  refine ⟨?_, by decide⟩
  rw [extract_features_nil]
  rfl

/-- C1 (amended): whenever the extractor returns (it raises only on an empty
header name), the vector has constant length 35 = 15 presence slots +
1 completeness + 5 UA slots + 1 count + 4 length statistics + 3
entropy/encoding + 2 structural + 4 anomaly slots; every slot is a real
number by construction. -/
theorem C1_feature_vector_length (H : HeaderSet) :
    (extract_features H).map List.length = (extract_features H).map (fun _ => 35) := by
  cases h : extract_features H with
  | none => rfl
  | some v => simp [extract_length H v h]

/-- C10: the feature vector (whenever returned) and the feature-name list
have the same length, so every position has exactly one name. -/
theorem C10_names_match_vector (H : HeaderSet) :
    (extract_features H).map List.length
      = (extract_features H).map (fun _ => get_feature_names.length) := by
  have hn : get_feature_names.length = 35 := by decide
  cases h : extract_features H with
  | none => rfl
  | some v => simp [extract_length H v h, hn]

/-- The empty Content-Type value scores 0.4: it matches the `^$` entry
(and no earlier one). -/
lemma mime_empty : mimeSuspicion "" = 2/5 := by
  simp +decide [mimeSuspicion, mimeLoop, MIME_MATCHERS]
  norm_num

/-- Slot 33 of the feature vector is the suspicious-MIME score of the
Content-Type value (the empty string when the header is absent). -/
lemma featureSlot_33 (H : HeaderSet) :
    featureSlot H 33 = (extract_features H).map
      (fun _ => ((mimeSuspicion (getHeaderD H "Content-Type" "") : ℚ) : ℝ)) := by
  unfold featureSlot extract_features
  cases hs : headerStructure H with
  | none => rfl
  | some p =>
    obtain ⟨od, cc⟩ := p
    obtain ⟨a, b, c, d, hstats⟩ := lengthStats_shape H
    rw [hstats]
    rfl

/-- Slot 30 of the feature vector is the case-consistency component computed
by `_analyze_header_structure`. -/
lemma featureSlot_30 (H : HeaderSet) (od cc : ℚ)
    (h : headerStructure H = some (od, cc)) :
    featureSlot H 30 = some ((cc : ℚ) : ℝ) := by
  unfold featureSlot extract_features
  rw [h]
  obtain ⟨a, b, c, d, hstats⟩ := lengthStats_shape H
  rw [hstats]
  rfl

/-- The classification loop returns one bucket per header, and counts of the
`http_standard` bucket agree with a per-name count. -/
lemma classesOf_spec (H : HeaderSet) :
    ∀ (cs : List CaseBucket), classesOf H = some cs →
      cs.length = H.length ∧
      cs.countP (fun c => c = CaseBucket.httpStandard)
        = H.countP (fun p => caseClass p.1 = some CaseBucket.httpStandard) := by
  induction H with
  | nil =>
    intro cs h
    simp only [classesOf, Option.some.injEq] at h
    subst h
    simp
  | cons p rest ih =>
    intro cs h
    simp only [classesOf] at h
    cases hc : caseClass p.1 with
    | none => rw [hc] at h; cases h
    | some c =>
      rw [hc] at h
      cases hr : classesOf rest with
      | none => rw [hr] at h; cases h
      | some cs' =>
        rw [hr] at h
        simp only [Option.some.injEq] at h
        subst h
        obtain ⟨ih1, ih2⟩ := ih cs' hr
        constructor
        · simp [ih1]
        · simp only [List.countP_cons, ih2, hc]
          by_cases hcb : c = CaseBucket.httpStandard <;> simp [hcb]

/-- C6 (amended): the case-consistency slot equals the fraction of header
names landing in the `http_standard` bucket of the source's if/elif chain:
names containing a hyphen whose segments all start uppercase, and which are
not all-lowercase, not all-uppercase, and not first-upper-rest-lower — so a
single-segment name such as "Host" is classified `title` and does not
count. -/
theorem C6_case_consistency_slot (H : HeaderSet) :
    featureSlot H 30 = (extract_features H).map
      (fun _ => ((caseConsistencyOf H : ℚ) : ℝ)) := by
  cases hs : headerStructure H with
  | none =>
    unfold featureSlot extract_features
    rw [hs]
    rfl
  | some p =>
    obtain ⟨od, cc⟩ := p
    rw [featureSlot_30 H od cc hs]
    have hcc : cc = caseConsistencyOf H := by
      unfold headerStructure at hs
      cases hcs : classesOf H with
      | none => rw [hcs] at hs; cases hs
      | some cs =>
        rw [hcs] at hs
        simp only [Option.some.injEq, Prod.mk.injEq] at hs
        obtain ⟨-, hcc⟩ := hs
        obtain ⟨hl, hcnt⟩ := classesOf_spec H cs hcs
        rw [← hcc]
        unfold caseConsistencyOf
        rw [hl, hcnt]
        by_cases hz : H.length = 0
        · simp [hz]
        · simp [hz, Nat.pos_of_ne_zero hz]
    unfold extract_features
    rw [hs, hcc]
    rfl

/-- The structure analysis of the one-header set `{"Host": "a"}`: order
deviation 0 and case consistency 0 ("Host" falls in the `title` bucket). -/
lemma headerStructure_host :
    headerStructure [("Host", "a")] = some (0, 0) := by
  have h1 : classesOf [("Host", "a")] = some [CaseBucket.title] := by decide
  unfold headerStructure
  rw [h1]
  have h2 : orderDeviation [("Host", "a")].unzip.1 = 0 := by
    simp +decide [orderDeviation, orderScore, typicalOrder, List.enum, List.enumFrom,
      List.indexOf, List.findIdx, List.findIdx.go]
  simp only [List.map, List.unzip] at h2 ⊢
  simp [h2]

/-- C6 counterexample: on `{"Host": "a"}` the case-consistency slot is 0,
not the 1.0 the claim asserts — "Host" matches the title-case pattern
checked earlier in the chain, not the hyphenated `http_standard` pattern. -/
theorem C6_counterexample :
    featureSlot [("Host", "a")] 30 = some (0 : ℝ) ∧ (0 : ℝ) ≠ 1 := by
  refine ⟨?_, by norm_num⟩
  rw [featureSlot_30 _ 0 0 headerStructure_host]
  norm_num

/-- All severities of the suspicious-MIME table are non-negative. -/
lemma mime_severities_nonneg : ∀ p ∈ MIME_MATCHERS, (0:ℚ) ≤ p.2 := by
  intro p hp
  simp only [MIME_MATCHERS, List.mem_cons, List.not_mem_nil, or_false] at hp
  rcases hp with rfl | rfl | rfl | rfl | rfl | rfl | rfl | rfl | rfl | rfl | rfl <;> norm_num

/-- The source's running-max-then-break loop computes exactly the
first-match severity, because all severities are non-negative. -/
lemma mimeLoop_eq_find (ct : String) :
    ∀ (l : List ((String → Bool) × ℚ)), (∀ p ∈ l, (0:ℚ) ≤ p.2) →
      mimeLoop 0 l ct
        = (match l.find? (fun p => p.1 ct) with
           | some p => p.2
           | none => 0) := by
  intro l
  induction l with
  | nil => intro _; rfl
  | cons q t ih =>
    intro hpos
    obtain ⟨m, sev⟩ := q
    by_cases hm : m ct = true
    · have h0 : (0:ℚ) ≤ sev := hpos (m, sev) (List.mem_cons_self _ _)
      simp [mimeLoop, List.find?_cons_of_pos, hm, max_eq_right h0]
    · simp only [Bool.not_eq_true] at hm
      have ht : ∀ p ∈ t, (0:ℚ) ≤ p.2 := fun p hp => hpos p (List.mem_cons_of_mem _ hp)
      simp [mimeLoop, hm, List.find?_cons_of_neg, ih ht]

/-- C2 (amended): the suspicious-MIME slot equals the severity of the first
entry of the ordered table matching the Content-Type value (not the maximum
over all matches), and 0 when no entry matches; an absent Content-Type is
looked up as the empty string, which matches the final empty-value pattern
and scores 0.4. -/
theorem C2_mime_first_match (H : HeaderSet) :
    featureSlot H 33 = (extract_features H).map
      (fun _ => ((mimeFirstMatch (getHeaderD H "Content-Type" "") : ℚ) : ℝ)) := by
  rw [featureSlot_33]
  have h : mimeSuspicion (getHeaderD H "Content-Type" "")
      = mimeFirstMatch (getHeaderD H "Content-Type" "") := by
    unfold mimeSuspicion mimeFirstMatch
    exact mimeLoop_eq_find _ MIME_MATCHERS mime_severities_nonneg
  rw [h]

/-- C2 counterexample: with no Content-Type header at all, the
suspicious-MIME slot is 0.4 (not the 0 the claim asserts), because the
absent header is read as the empty value and `^$` matches it. -/
theorem C2_counterexample :
    featureSlot [("Host", "a")] 33 = some ((2:ℝ)/5) ∧ ((2:ℝ)/5) ≠ 0 := by
  refine ⟨?_, by norm_num⟩
  rw [featureSlot_33]
  have hg : getHeaderD [("Host", "a")] "Content-Type" "" = "" := rfl
  rw [hg, mime_empty]
  unfold extract_features
  rw [headerStructure_host]
  norm_num

/-- C8: the extractor is not total — the header set `{"": "x"}` makes the
source raise `IndexError` at `key[0]` inside `_analyze_header_structure`
(modelled as `none`); on the empty header set it does return, with every
ratio-based slot defaulting to 0 (the 2/5 slot is the suspicious-MIME score
of the absent Content-Type). -/
theorem C8_empty_name_raises :
    extract_features [("", "x")] = none
    ∧ extract_features []
      = some [0, 0, 0, 0, 0, 0, 0, 0, 0, 0, 0, 0, 0, 0, 0,
              0,
              0, 0, 0, 0, 0,
              0,
              0, 0, 0, 0,
              0, 0, 0,
              0, 0,
              0, 0, (2:ℝ)/5, 0] := by
  refine ⟨?_, extract_features_nil⟩
  have h : classesOf [("", "x")] = none := by decide
  unfold extract_features headerStructure
  rw [h]

/- ### Claims about the analyzer -/

/-- Severity weights are non-negative. -/
lemma severityScore_nonneg (s : String) : 0 ≤ severityScore s := by
  unfold severityScore
  split_ifs <;> norm_num

/-- The mutation sub-score is non-negative. -/
lemma mutationScore_nonneg (H : HeaderSet) : 0 ≤ mutationScore H := by
  unfold mutationScore
  apply le_min _ (by norm_num)
  positivity

/-- The accumulated risk score is a sum of non-negative contributions. -/
lemma riskRaw_nonneg (H : HeaderSet) (pd : String → Option ℤ) (now : ℤ) :
    0 ≤ riskRaw H pd now := by
  unfold riskRaw
  have hs : 0 ≤ ((suspiciousFindings H).map (fun f => severityScore f.2.2.1)).sum := by
    apply List.sum_nonneg
    intro x hx
    simp only [List.mem_map] at hx
    obtain ⟨f, -, rfl⟩ := hx
    exact severityScore_nonneg _
  have h8 : (0:ℚ) ≤ if uaShortFlag H then 1/5 else 0 := by split <;> norm_num
  have h9 : (0:ℚ) ≤ if (uaAutoKeyword H).isSome then 3/20 else 0 := by
    split <;> norm_num
  have h10 : (0:ℚ) ≤ if mutationScore H > 0 then mutationScore H * (3/10) else 0 := by
    split
    · exact mul_nonneg (mutationScore_nonneg H) (by norm_num)
    · exact le_refl 0
  have h11 : (0:ℚ) ≤ if (checkTiming pd now H).isEmpty then 0 else 1/10 := by
    split <;> norm_num
  have c1 : (0:ℚ) ≤ (3/10) * ((missingCritical H).length : ℚ) := by positivity
  have c2 : (0:ℚ) ≤ (1/10) * ((missingImportant H).length : ℚ) := by positivity
  have c4 : (0:ℚ) ≤ (1/10) * ((encodingIssuesAll H).length : ℚ) := by positivity
  have c5 : (0:ℚ) ≤ (1/20) * ((ipAnomalyTotal H) : ℚ) := by positivity
  have c6 : (0:ℚ) ≤ (1/2) * ((injCount H) : ℚ) := by positivity
  have c7 : (0:ℚ) ≤ (2/5) * ((nullCount H) : ℚ) := by positivity
  linarith

/-- C4: the risk score of every report lies in `[0, 1]` (the accumulated
score is clamped by `min(accumulated, 1.0)` and every contribution is
non-negative), and the risk level is derived from it by the thresholds
0.3 and 0.6 — so 0.29 is "low", 0.3 and 0.59 are "medium", 0.6 is "high". -/
theorem C4_risk_score_range (H : HeaderSet) (pd : String → Option ℤ) (now : ℤ) :
    0 ≤ (analyze_headers H pd now).risk_score
    ∧ (analyze_headers H pd now).risk_score ≤ 1
    ∧ (analyze_headers H pd now).risk_level
      = (if (analyze_headers H pd now).risk_score < 3/10 then "low"
         else if (analyze_headers H pd now).risk_score < 3/5 then "medium"
         else "high") :=
  ⟨le_min (riskRaw_nonneg H pd now) (by norm_num), min_le_right _ _, rfl⟩

/-- C5 counterexample: a header set with two timing anomalies accumulates
only +0.1 from the timing block — its whole risk score is 0.1, where the
claim's per-anomaly accounting would give 0.2. -/
theorem C5_counterexample :
    (checkTiming (fun _ => none) 0 twoBadDates).length = 2
    ∧ (analyze_headers twoBadDates (fun _ => none) 0).risk_score = 1/10
    ∧ ((1:ℚ)/10) ≠ 2/10 := by
  have ht : checkTiming (fun _ => none) 0 twoBadDates
      = [("Date", "Suspicious date value", "medium"),
         ("Last-Modified", "Suspicious date value", "medium")] := by decide
  have h1 : missingCritical twoBadDates = [] := by decide
  have h2 : missingImportant twoBadDates = [] := by decide
  have h3 : suspiciousFindings twoBadDates = [] := by decide
  have h4 : encodingIssuesAll twoBadDates = [] := by decide
  have h5 : ipAnomalyTotal twoBadDates = 0 := by decide
  have h6 : injCount twoBadDates = 0 := by decide
  have h7 : nullCount twoBadDates = 0 := by decide
  have h8 : uaShortFlag twoBadDates = false := by decide
  have h9 : uaAutoKeyword twoBadDates = none := by decide
  have h10 : caseMutations twoBadDates = [] := by decide
  have h11 : typoMsgs twoBadDates = [] := by decide
  have h12 : sepMsgs twoBadDates = [] := by decide
  have hms : mutationScore twoBadDates = 0 := by
    unfold mutationScore
    rw [h10, h11, h12]
    norm_num
  refine ⟨by rw [ht]; rfl, ?_, by norm_num⟩
  show min (riskRaw twoBadDates (fun _ => none) 0) 1 = 1/10
  unfold riskRaw
  rw [h1, h2, h3, h4, h5, h6, h7, h8, h9, hms, ht]
  norm_num

/-- C5 (amended): the timing block adds a single flat +0.1 to the
accumulated score whenever the timing-anomaly list is nonempty, independent
of how many anomalies it holds: two environments that both produce
anomalies for the same headers yield the same accumulated score, and an
environment with anomalies scores exactly +0.1 more than one without. -/
theorem C5_flat_timing_addition :
    (∀ (H : HeaderSet) (pd pd' : String → Option ℤ) (now now' : ℤ),
        checkTiming pd now H ≠ [] → checkTiming pd' now' H ≠ [] →
        riskRaw H pd now = riskRaw H pd' now')
    ∧ (∀ (H : HeaderSet) (pd pd' : String → Option ℤ) (now now' : ℤ),
        checkTiming pd now H ≠ [] → checkTiming pd' now' H = [] →
        riskRaw H pd now = riskRaw H pd' now' + 1/10) := by
  constructor
  · intro H pd pd' now now' h h'
    unfold riskRaw
    simp only [List.isEmpty_iff]
    rw [if_neg h, if_neg h']
  · intro H pd pd' now now' h h'
    unfold riskRaw
    simp only [List.isEmpty_iff]
    rw [if_neg h, if_pos h']
    ring

/-- Witness for C5 at concrete inputs: for `{"Date": "x"}`, a parser that
fails and one that parses into the far future both produce an anomaly and
the same accumulated score, and a parser that parses to `now` produces no
anomaly and an accumulated score lower by exactly 0.1. -/
theorem C5_flat_timing_witness :
    (checkTiming (fun _ => none) 0 [("Date", "x")] ≠ []
      ∧ checkTiming (fun _ => some 1000000000) 0 [("Date", "x")] ≠ []
      ∧ riskRaw [("Date", "x")] (fun _ => none) 0
          = riskRaw [("Date", "x")] (fun _ => some 1000000000) 0)
    ∧ (checkTiming (fun _ => none) 0 [("Date", "x")] ≠ []
      ∧ checkTiming (fun _ => some 0) 0 [("Date", "x")] = []
      ∧ riskRaw [("Date", "x")] (fun _ => none) 0
          = riskRaw [("Date", "x")] (fun _ => some 0) 0 + 1/10) :=
  ⟨⟨by decide, by decide,
    C5_flat_timing_addition.1 [("Date", "x")] _ _ 0 0 (by decide) (by decide)⟩,
   ⟨by decide, by decide,
    C5_flat_timing_addition.2 [("Date", "x")] _ _ 0 0 (by decide) (by decide)⟩⟩

/-- C9 counterexample: the same header set analyzed at two different clock
times (about 11.6 days before the Date value and about 11.6 days after it)
yields different reports — the first records a future-date anomaly, the
second records nothing — so the result does not depend on the header set
alone. -/
theorem C9_counterexample :
    analyze_headers dateOnly pdRFC 4259211200
      ≠ analyze_headers dateOnly pdRFC 4261211200 := by
  intro h
  have hc := congrArg RiskReport.content_anomalies h
  have h1 : (analyze_headers dateOnly pdRFC 4259211200).content_anomalies
      = [ContentAnomaly.timingAnoms [("Date", "Future date", "medium")]] := by decide
  have h2 : (analyze_headers dateOnly pdRFC 4261211200).content_anomalies
      = [] := by decide
  rw [h1, h2] at hc
  cases hc

/-- C9 (amended): the analyzer is deterministic given its environment — the
header set, the date parser, and the current clock time — and the clock
influences the report only through the timing-anomaly check: whenever that
check agrees at two times, the whole reports agree. -/
theorem C9_deterministic_given_clock (H : HeaderSet) (pd : String → Option ℤ)
    (now now' : ℤ) (h : checkTiming pd now H = checkTiming pd now' H) :
    analyze_headers H pd now = analyze_headers H pd now' := by
  unfold analyze_headers riskRaw contentAnomaliesOf
  rw [h]

/-- Witness for C9 at a concrete input: on the empty header set the timing
check is empty at both times 0 and 1, so the reports coincide. -/
theorem C9_witness :
    checkTiming (fun _ => none) 0 [] = checkTiming (fun _ => none) 1 []
    ∧ analyze_headers [] (fun _ => none) 0 = analyze_headers [] (fun _ => none) 1 :=
  ⟨rfl, C9_deterministic_given_clock [] (fun _ => none) 0 1 rfl⟩

/-- Integer characterization of the ensemble verdict and confidence. -/
lemma ensemble_characterization (members : List (String × ℚ × ℤ)) :
    (predict_ensemble_model members).verdict
      = (if 2 * suspCount members > members.length then "suspicious"
         else if suspCount members = 0 then "normal" else "gray")
    ∧ (predict_ensemble_model members).confidence
      = (if suspCount members = 0 ∨ suspCount members = members.length then 1
         else |(suspCount members : ℚ) - (members.length : ℚ) / 2|
              / ((members.length : ℚ) / 2)) := by
  have hlen : (mkVotes members).length = members.length := by
    simp [mkVotes]
  constructor
  · show (if ((suspCount members : ℚ) > ((mkVotes members).length : ℚ) / 2) then _
          else if suspCount members = 0 then _ else _) = _
    rw [hlen]
    have hiff : ((suspCount members : ℚ) > (members.length : ℚ) / 2)
        ↔ 2 * suspCount members > members.length := by
      rw [gt_iff_lt, div_lt_iff₀ (by norm_num : (0:ℚ) < 2)]
      constructor
      · intro h
        exact_mod_cast (by push_cast; linarith : ((members.length : ℚ))
          < ((2 * suspCount members : ℕ) : ℚ))
      · intro h
        have : ((members.length : ℚ)) < ((2 * suspCount members : ℕ) : ℚ) := by
          exact_mod_cast h
        push_cast at this
        linarith
    by_cases h : 2 * suspCount members > members.length
    · rw [if_pos (hiff.mpr h), if_pos h]
    · rw [if_neg (fun hc => h (hiff.mp hc)), if_neg h]
  · show (if (suspCount members = 0 || suspCount members = (mkVotes members).length)
          then (1:ℚ) else _) = _
    rw [hlen]
    by_cases h : suspCount members = 0 ∨ suspCount members = members.length
    · rw [if_pos (by simpa using h), if_pos h]
    · rw [if_neg (by simpa using h), if_neg h]
      rfl

/-- C3: the ensemble verdict is "suspicious" iff strictly more than half of
the votes are suspicious, "normal" iff none is, and "gray" otherwise;
confidence is 1.0 on unanimity and the deviation-from-tie ratio otherwise;
a 2/2 split of 4 votes gives "gray" with confidence 0, finalized to
"suspicious" at heuristic risk 0.6, "normal" at 0.1, "gray" at 0.35. -/
theorem C3_ensemble_majority_and_tiebreak :
    (∀ members : List (String × ℚ × ℤ),
      (predict_ensemble_model members).verdict
        = (if 2 * suspCount members > members.length then "suspicious"
           else if suspCount members = 0 then "normal" else "gray")
      ∧ (predict_ensemble_model members).confidence
        = (if suspCount members = 0 ∨ suspCount members = members.length then 1
           else |(suspCount members : ℚ) - (members.length : ℚ) / 2|
                / ((members.length : ℚ) / 2)))
    ∧ suspCount fourVotes = 2
    ∧ (predict_ensemble_model fourVotes).verdict = "gray"
    ∧ (predict_ensemble_model fourVotes).confidence = 0
    ∧ finalVerdictEnsemble "gray" (3/5) = "suspicious"
    ∧ finalVerdictEnsemble "gray" (1/10) = "normal"
    ∧ finalVerdictEnsemble "gray" (7/20) = "gray" := by
  have hs : suspCount fourVotes = 2 := by decide
  have hl : fourVotes.length = 4 := by decide
  refine ⟨ensemble_characterization, hs, ?_, ?_, ?_, ?_, ?_⟩
  · rw [(ensemble_characterization fourVotes).1, hs, hl]
    norm_num
  · rw [(ensemble_characterization fourVotes).2, hs, hl]
    norm_num
  · simp [finalVerdictEnsemble]
    norm_num
  · simp [finalVerdictEnsemble]
    norm_num
  · simp [finalVerdictEnsemble]
    norm_num
